import Mathlib

/-!
Verification development for the sf-document-uploader repository.

The definitions below are a shallow embedding of the Go sources
(src/internal/processor/parser.go and src/internal/processor/document.go,
plus the data model of src/internal/models/models.go).  Go maps with
string keys are modelled as association lists with unique keys, with
upsert assignment (mapSet), lookup returning the zero value "" for a
missing key (mapGet), and presence-aware lookup (mapFind).  Network and
file-system boundaries are modelled by passing the already-decoded
response data as explicit arguments to the pure result-processing
functions, exactly mirroring what the Go code does with the decoded
JSON values.
-/

/-- Association-list lookup, mirroring the comma-ok form v, ok := m[k]. -/
def mapFind (m : List (String × String)) (k : String) : Option String :=
  match m with
  | [] => none
  | (k', v) :: rest => if k' = k then some v else mapFind rest k

/-- Go map indexing m[k]: yields the zero value "" when the key is absent. -/
def mapGet (m : List (String × String)) (k : String) : String :=
  (mapFind m k).getD ""

/-- Go map assignment m[k] = v: replaces the binding if the key exists,
otherwise appends a new binding.  Keeps keys unique. -/
def mapSet (m : List (String × String)) (k v : String) : List (String × String) :=
  match m with
  | [] => [(k, v)]
  | (k', v') :: rest => if k' = k then (k, v) :: rest else (k', v') :: mapSet rest k v

/-- DocumentInfo from src/internal/models/models.go.  The NamePath and
SalesforceIds maps are association lists; ContentType is carried but never
set by the cited code. -/
structure DocumentInfo where
  filePath : String
  relativePath : String := ""
  entityType : String := ""
  namePath : List (String × String) := []
  documentType : String := ""
  contentType : String := ""
  salesforceIds : List (String × String) := []
  contentDocumentId : String := ""
deriving DecidableEq, Repr

/-- EntityLookup from src/internal/models/models.go: one entry of the
bulk-lookup request, and also the parsed form of a response key. -/
structure EntityLookup where
  entityType : String
  namePath : List (String × String)
deriving DecidableEq, Repr

/-- strings.Split(s, sep) for a one-character separator, as used by
ParseFileName with sep underscore.  Splitting the empty string yields
a single empty field, as in Go. -/
def splitOnChar (sep : Char) : List Char → List (List Char)
  | [] => [[]]
  | c :: rest =>
    let r := splitOnChar sep rest
    if c = sep then [] :: r
    else
      match r with
      | h :: t => (c :: h) :: t
      | [] => [[c]]

/-- The underscore-separated fields of a filename, as strings. -/
def splitFields (s : String) : List String :=
  (splitOnChar '_' s.data).map fun l => String.mk l

/-- filepath.Ext: the suffix beginning at the final dot in the final
slash-separated element; empty if there is no dot. -/
def goExt (s : String) : String :=
  goExtLoop s.data.reverse []
where
  goExtLoop : List Char → List Char → String
    | [], _ => ""
    | c :: rest, acc =>
      if c = '.' then String.mk (c :: acc)
      else if c = '/' then ""
      else goExtLoop rest (c :: acc)

/-- strings.TrimSuffix(name, filepath.Ext(name)): drops the extension.
goExt s is always a suffix of s, so dropping its length removes it. -/
def trimExt (s : String) : String :=
  s.dropRight (goExt s).length

/-- parseDocumentType from src/internal/processor/parser.go: the closed
code table of document-type prefixes.  Returns none for an unknown code
(the Go function then errors). -/
def parseDocumentType (pre : String) : Option String :=
  if pre = "bl" then some "Building Location"
  else if pre = "f" then some "Finish"
  else if pre = "fp" then some "Floor Plan"
  else if pre = "g" then some "Gallery"
  else if pre = "pp" then some "Project Plan"
  else if pre = "up" then some "Unit Plan"
  else if pre = "gd" then some "Generic Document"
  else none

/-- parseEntityType from src/internal/processor/parser.go.  The Go
function receives parts[1:]; here entityType is that slice's head and
remaining its tail (the function reads them exactly this way).  Note the
UNIT branch stores remaining[0], remaining[1], remaining[3], remaining[4]
but never remaining[2]: the zone component of a unit filename is skipped. -/
def parseEntityType (entityType : String) (remaining : List String)
    (info : DocumentInfo) : Except String DocumentInfo :=
  if entityType = "u" then
    match remaining with
    | [r0, r1, _, r3, r4] =>
      .ok { info with
              entityType := "UNIT",
              namePath :=
                mapSet (mapSet (mapSet (mapSet info.namePath
                  "project" r0) "phase" r1) "building" r3) "unit" (trimExt r4) }
    | _ =>
      let n := remaining.length
      .error s!"invalid unit filename format: expected 5 parts, got {n}"
  else if entityType = "p" then
    match remaining with
    | [r0, r1] =>
      .ok { info with
              entityType := "PHASE",
              namePath :=
                mapSet (mapSet info.namePath "project" r0) "phase" (trimExt r1) }
    | _ =>
      let n := remaining.length
      .error s!"invalid phase filename format: expected 2 parts, got {n}"
  else if entityType = "z" then
    match remaining with
    | [r0, r1, r2] =>
      .ok { info with
              entityType := "ZONE",
              namePath :=
                mapSet (mapSet (mapSet info.namePath
                  "project" r0) "phase" r1) "zone" (trimExt r2) }
    | _ =>
      let n := remaining.length
      .error s!"invalid zone filename format: expected 3 parts, got {n}"
  else if entityType = "b" then
    match remaining with
    | [r0, r1, r2, r3] =>
      .ok { info with
              entityType := "BUILDING",
              namePath :=
                mapSet (mapSet (mapSet (mapSet info.namePath
                  "project" r0) "phase" r1) "zone" r2) "building" (trimExt r3) }
    | _ =>
      let n := remaining.length
      .error s!"invalid building filename format: expected 4 parts, got {n}"
  else if entityType = "dt" then
    match remaining with
    | [r0, r1, r2] =>
      .ok { info with
              entityType := "DESIGN_TYPE",
              namePath :=
                mapSet (mapSet (mapSet info.namePath
                  "project" r0) "phase" r1) "designType" (trimExt r2) }
    | _ =>
      let n := remaining.length
      .error s!"invalid design type filename format: expected 3 parts, got {n}"
  else
    .error s!"unknown entity type identifier: {entityType}"

/-- ParseFileName from src/internal/processor/parser.go: split on
underscores, require at least three fields, read the document-type code
from the first field, then parse the entity section from the rest. -/
def ParseFileName (filename : String) : Except String DocumentInfo :=
  let parts := splitFields filename
  if parts.length < 3 then .error s!"invalid filename format: {filename}"
  else
    match parts with
    | p0 :: p1 :: rest =>
      match parseDocumentType p0 with
      | none => .error s!"unknown document type prefix: {p0}"
      | some docType =>
        parseEntityType p1 rest { filePath := filename, documentType := docType }
    | _ => .error s!"invalid filename format: {filename}"

deriving instance DecidableEq for Except

/-- strings.HasPrefix(s, pre), as a structural test on the character
lists (used for the reserved error marker check on lookup results). -/
def strHasPre (pre s : String) : Bool :=
  isPre pre.data s.data
where
  isPre : List Char → List Char → Bool
    | [], _ => true
    | _ :: _, [] => false
    | c :: cs, d :: ds => c == d && isPre cs ds

/-- strings.ToLower restricted to ASCII letters; the entity-type tags it
is applied to ("UNIT", "PHASE", ...) are ASCII. -/
def toLowerAscii (s : String) : String :=
  String.mk (s.data.map fun c =>
    if 65 ≤ c.toNat ∧ c.toNat ≤ 90 then Char.ofNat (c.toNat + 32) else c)

/-- compareNamePaths from src/internal/processor/document.go: unordered
map equality (same size, every key of path1 bound to the same value in
path2).  On the unique-key association lists built by the parser this is
exactly Go map equality. -/
def compareNamePaths (path1 path2 : List (String × String)) : Bool :=
  path1.length == path2.length &&
    path1.all fun kv =>
      match mapFind path2 kv.1 with
      | some v2 => kv.2 == v2
      | none => false

/-- The request built by bulkLookupEntities (document.go lines 82-88):
one EntityLookup per document, in document order, with no
deduplication of repeated (entityType, namePath) pairs. -/
def buildBulkLookupRequest (documents : List DocumentInfo) : List EntityLookup :=
  documents.map fun d => { entityType := d.entityType, namePath := d.namePath }

/-- The inner matching loop of bulkLookupEntities (document.go lines
118-136): scan the decoded response for the first entry whose parsed key
has the document's entity type and an equal name path.  The response is
modelled as the list of (parsed key, value) pairs; keys that fail to
unmarshal are skipped by the Go code and therefore omitted here. -/
def findLookupResult (results : List (EntityLookup × String))
    (d : DocumentInfo) : Option (EntityLookup × String) :=
  results.find? fun r =>
    r.1.entityType == d.entityType && compareNamePaths r.1.namePath d.namePath

/-- The per-document result-processing loop of bulkLookupEntities
(document.go lines 116-143): for each document in order, find its
result; no result is a fatal error; an ERROR:-tagged value aborts
immediately with a single-document message; otherwise the id is stored
under the lowercased entity type in SalesforceIds. -/
def processLookupResults (results : List (EntityLookup × String)) :
    List DocumentInfo → Except String (List DocumentInfo)
  | [] => .ok []
  | d :: ds =>
    match findLookupResult results d with
    | none => .error ("no lookup result found for " ++ d.filePath)
    | some (_, resultId) =>
      if strHasPre "ERROR:" resultId then
        .error ("lookup failed for " ++ d.filePath ++ ": " ++ resultId)
      else
        match processLookupResults results ds with
        | .error e => .error e
        | .ok rest =>
          .ok ({ d with salesforceIds :=
                   mapSet d.salesforceIds (toLowerAscii d.entityType) resultId } :: rest)

/-- The observable behaviour of bulkLookupEntities given the decoded
lookup response: the request that is sent and the document states after
the result-processing loop (or the error that aborts it). -/
def bulkLookupEntities (documents : List DocumentInfo)
    (results : List (EntityLookup × String)) :
    List EntityLookup × Except String (List DocumentInfo) :=
  (buildBulkLookupRequest documents, processLookupResults results documents)

/-- One prepared ContentVersion sub-request (document.go lines 161-171).
Title and PathOnClient are filepath.Base(doc.FilePath); FilePath is set
from file.Name() by collectDocuments, a bare file name, on which Base is
the identity.  VersionData (the base64 file bytes) is not represented:
it never influences batching or the document states, and a failed file
read aborts the stage before any batching happens. -/
structure ContentVersionRequest where
  refIdx : Nat
  title : String
  pathOnClient : String
  firstPublishLocationId : String
deriving DecidableEq, Repr

/-- The request-preparation loop of bulkUploadContentVersions
(document.go lines 153-174), with i the running referenceId index. -/
def buildContentVersionRequestsFrom (i : Nat) :
    List DocumentInfo → List ContentVersionRequest
  | [] => []
  | d :: ds =>
    { refIdx := i,
      title := d.filePath,
      pathOnClient := d.filePath,
      firstPublishLocationId := mapGet d.salesforceIds (toLowerAscii d.entityType) }
      :: buildContentVersionRequestsFrom (i + 1) ds

def buildContentVersionRequests (documents : List DocumentInfo) :
    List ContentVersionRequest :=
  buildContentVersionRequestsFrom 0 documents

/-- The chunking loop shared by bulkUploadContentVersions and
bulkCreateAttachmentUploaders (document.go lines 179-184 and 396-401,
with min from lines 479-484): for i := 0; i < len; i += 25 the slice
allRequests[i:min(i+25, len)] is sent as one composite call.  The
batchSize constant is 25 in both call sites. -/
def chunkBatches : List α → List (List α)
  | [] => []
  | x :: xs => List.take 25 (x :: xs) :: chunkBatches (List.drop 25 (x :: xs))
termination_by l => l.length
decreasing_by simp [List.length_drop]; omega

/-- List.modify at an index: the effect of documents[refIndex].f = v on
the slice, identity when the index is out of range. -/
def modifyAt (f : α → α) : Nat → List α → List α
  | _, [] => []
  | 0, a :: as => f a :: as
  | n + 1, a :: as => a :: modifyAt f n as

/-- The success-response loop of bulkUploadContentVersions (document.go
lines 224-241) applied over all batches: each decoded 201 result carries
a referenceId index and the new ContentVersion id, stored under
"contentVersionId" for the document at that index when it is in range. -/
def applyVersionIds (docs : List DocumentInfo) :
    List (Nat × String) → List DocumentInfo
  | [] => docs
  | (idx, versionId) :: rest =>
    applyVersionIds
      (if idx < docs.length then
        modifyAt
          (fun d => { d with salesforceIds :=
                        mapSet d.salesforceIds "contentVersionId" versionId })
          idx docs
      else docs)
      rest

/-- The ContentDocument-id reconciliation loop (document.go lines
285-300): cdIdMap maps each ContentVersion id to its ContentDocument id;
a document with a recorded contentVersionId found in the map gets its
ContentDocumentId set. -/
def applyContentDocIdsElem (cdIdMap : List (String × String))
    (d : DocumentInfo) : DocumentInfo :=
  match mapFind d.salesforceIds "contentVersionId" with
  | some versionId =>
    match mapFind cdIdMap versionId with
    | some contentDocId => { d with contentDocumentId := contentDocId }
    | none => d
  | none => d

def applyContentDocIds (cdIdMap : List (String × String))
    (docs : List DocumentInfo) : List DocumentInfo :=
  docs.map (applyContentDocIdsElem cdIdMap)

/-- The verification loop (document.go lines 304-311): the first document
left with an empty ContentDocumentId fails the stage. -/
def verifyContentDocIds (docs : List DocumentInfo) : Except String Unit :=
  match docs.find? (fun d => d.contentDocumentId == "") with
  | some d => .error ("failed to get ContentDocumentId for file: " ++ d.filePath)
  | none => .ok ()

/-- The document-state effect of bulkUploadContentVersions given the
decoded batch responses (referenceId index, ContentVersion id) and the
decoded query records (ContentVersion id, ContentDocument id). -/
def bulkUploadContentVersions (docs : List DocumentInfo)
    (versionResults : List (Nat × String))
    (cdIdMap : List (String × String)) : Except String (List DocumentInfo) :=
  let updated := applyContentDocIds cdIdMap (applyVersionIds docs versionResults)
  match verifyContentDocIds updated with
  | .error e => .error e
  | .ok _ => .ok updated

/-- generateDisplayValue from document.go lines 506-547. -/
def generateDisplayValue (doc : DocumentInfo) : String :=
  if doc.entityType = "UNIT" then
    doc.documentType ++ " for Unit " ++ mapGet doc.namePath "unit" ++
      " of Building " ++ mapGet doc.namePath "building" ++
      " in Phase " ++ mapGet doc.namePath "phase" ++
      " of " ++ mapGet doc.namePath "project"
  else if doc.entityType = "BUILDING" then
    doc.documentType ++ " for Building " ++ mapGet doc.namePath "building" ++
      " in Zone " ++ mapGet doc.namePath "zone" ++
      " of Phase " ++ mapGet doc.namePath "phase" ++
      " - " ++ mapGet doc.namePath "project"
  else if doc.entityType = "ZONE" then
    doc.documentType ++ " for Zone " ++ mapGet doc.namePath "zone" ++
      " in Phase " ++ mapGet doc.namePath "phase" ++
      " of " ++ mapGet doc.namePath "project"
  else if doc.entityType = "PHASE" then
    doc.documentType ++ " for Phase " ++ mapGet doc.namePath "phase" ++
      " of " ++ mapGet doc.namePath "project"
  else if doc.entityType = "DESIGN_TYPE" then
    doc.documentType ++ " for Design Type " ++ mapGet doc.namePath "designType" ++
      " in Phase " ++ mapGet doc.namePath "phase" ++
      " of " ++ mapGet doc.namePath "project"
  else
    trimExt doc.filePath

/-- The entity id selected by the first switch of
bulkCreateAttachmentUploaders (document.go lines 333-345): the resolved
id for the document's own level, "" (Go's zero value) for any other
entity type. -/
def attachmentEntityId (d : DocumentInfo) : String :=
  if d.entityType = "UNIT" then mapGet d.salesforceIds "unit"
  else if d.entityType = "PHASE" then mapGet d.salesforceIds "phase"
  else if d.entityType = "ZONE" then mapGet d.salesforceIds "zone"
  else if d.entityType = "BUILDING" then mapGet d.salesforceIds "building"
  else if d.entityType = "DESIGN_TYPE" then mapGet d.salesforceIds "design_type"
  else ""

/-- The per-level lookup-field name added by the second switch
(document.go lines 365-376); "" when the entity type matches no case and
no field is added. -/
def attachmentLevelField (entityType : String) : String :=
  if entityType = "UNIT" then "Unit__c"
  else if entityType = "PHASE" then "Phase__c"
  else if entityType = "ZONE" then "Zone__c"
  else if entityType = "BUILDING" then "Building__c"
  else if entityType = "DESIGN_TYPE" then "Design_Type__c"
  else ""

/-- One Attachments_Uploader__c sub-request (document.go lines 355-385).
Content_Type__c is omitted: it is derived by MIME-sniffing the file on
disk (getContentType), outside this pure model, and no claim depends on
it.  Display_Value_Arabic__c equals Display_Value__c in the source and is
carried as displayValueArabic. -/
structure AttachmentRequest where
  refIdx : Nat
  name : String
  attachmentType : String
  contentDocumentId : String
  attachmentUrl : String
  displayValue : String
  displayValueArabic : String
  levelField : String
  levelFieldValue : String
deriving DecidableEq, Repr

/-- The request-building loop of bulkCreateAttachmentUploaders
(document.go lines 320-387), with i the running referenceId index:
documents without a ContentDocumentId or without their level's resolved
id are skipped (continue), all others produce one request. -/
def buildAttachmentRequestsFrom (i : Nat) :
    List DocumentInfo → List AttachmentRequest
  | [] => []
  | d :: ds =>
    if d.contentDocumentId = "" then buildAttachmentRequestsFrom (i + 1) ds
    else if attachmentEntityId d = "" then buildAttachmentRequestsFrom (i + 1) ds
    else
      { refIdx := i,
        name := attachmentEntityId d,
        attachmentType := d.documentType,
        contentDocumentId := d.contentDocumentId,
        attachmentUrl := "/lightning/r/ContentDocument/" ++ d.contentDocumentId ++ "/view",
        displayValue := generateDisplayValue d,
        displayValueArabic := generateDisplayValue d,
        levelField := attachmentLevelField d.entityType,
        levelFieldValue := attachmentEntityId d }
        :: buildAttachmentRequestsFrom (i + 1) ds

def buildAttachmentRequests (documents : List DocumentInfo) : List AttachmentRequest :=
  buildAttachmentRequestsFrom 0 documents

/-- The build-and-check phase of bulkCreateAttachmentUploaders
(document.go lines 320-391): zero creatable records is the hard failure
"no valid records to create", otherwise the requests proceed to the
chunked composite calls. -/
def bulkCreateAttachmentUploaders (documents : List DocumentInfo) :
    Except String (List AttachmentRequest) :=
  let allRequests := buildAttachmentRequests documents
  if allRequests = [] then .error "no valid records to create"
  else .ok allRequests

/-- One entry of an os.ReadDir listing, as consulted by collectDocuments. -/
structure DirEntry where
  name : String
  isDir : Bool
deriving DecidableEq, Repr

/-- collectDocuments from src/internal/processor/document.go lines 22-48:
skip directories, parse every remaining entry's name (the first parse
failure aborts), and return whatever accumulated — including the empty
list, which is returned as success. -/
def collectDocuments : List DirEntry → Except String (List DocumentInfo)
  | [] => .ok []
  | e :: es =>
    if e.isDir then collectDocuments es
    else
      match ParseFileName e.name with
      | .error err => .error ("error parsing filename " ++ e.name ++ ": " ++ err)
      | .ok d =>
        match collectDocuments es with
        | .error err => .error err
        | .ok rest => .ok (d :: rest)

/-- The fixed arity of trailing name components selected by each entity
code in parseEntityType: u takes 5, p takes 2, z takes 3, b takes 4,
dt takes 3; any other code is unknown. -/
def entityArity (code : String) : Option Nat :=
  if code = "u" then some 5
  else if code = "p" then some 2
  else if code = "z" then some 3
  else if code = "b" then some 4
  else if code = "dt" then some 3
  else none

/-- The arity-mismatch message produced by parseEntityType for each
entity code, for an actual component count n. -/
def arityMsg (code : String) (n : Nat) : String :=
  if code = "u" then s!"invalid unit filename format: expected 5 parts, got {n}"
  else if code = "p" then s!"invalid phase filename format: expected 2 parts, got {n}"
  else if code = "z" then s!"invalid zone filename format: expected 3 parts, got {n}"
  else if code = "b" then s!"invalid building filename format: expected 4 parts, got {n}"
  else if code = "dt" then s!"invalid design type filename format: expected 3 parts, got {n}"
  else ""

/-! Concrete sample documents used to evaluate the model on closed
inputs. -/

def docA : DocumentInfo :=
  { filePath := "a.pdf", entityType := "PHASE",
    namePath := [("project", "P1"), ("phase", "F1")],
    documentType := "Project Plan" }

def docB : DocumentInfo :=
  { docA with filePath := "b.pdf" }

def docC : DocumentInfo :=
  { filePath := "c.pdf", entityType := "PHASE",
    namePath := [("project", "P1"), ("phase", "F2")],
    documentType := "Project Plan" }

def unitDoc : DocumentInfo :=
  { filePath := "fp_u_P1_F1_Z1_B1_U7.pdf", entityType := "UNIT",
    namePath := [("project", "P1"), ("phase", "F1"),
                 ("building", "B1"), ("unit", "U7")],
    documentType := "Floor Plan" }

def unitDocB : DocumentInfo :=
  { filePath := "up_u_P1_F1_Z1_B9_U8.pdf", entityType := "UNIT",
    namePath := [("project", "P1"), ("phase", "F1"),
                 ("building", "B9"), ("unit", "U8")],
    documentType := "Unit Plan" }

/-- The key set of the map never shrinks: this is the append-only
property of Go map assignment (keys are added or overwritten, never
deleted). -/
def keysSubset (m1 m2 : List (String × String)) : Prop :=
  ∀ k, (mapFind m1 k).isSome = true → (mapFind m2 k).isSome = true

/-! Helper lemmas about the map model. -/

theorem mapFind_mapSet (m : List (String × String)) (k v k2 : String) :
    mapFind (mapSet m k v) k2 = if k2 = k then some v else mapFind m k2 := by
  induction m with
  | nil =>
    simp only [mapSet, mapFind]
    by_cases h : k = k2
    · rw [if_pos h, if_pos h.symm]
    · rw [if_neg h, if_neg (fun h2 : k2 = k => h h2.symm)]
  | cons kv rest ih =>
    obtain ⟨k', v'⟩ := kv
    simp only [mapSet]
    by_cases h1 : k' = k
    · rw [if_pos h1]
      simp only [mapFind]
      by_cases h2 : k = k2
      · rw [if_pos h2, if_pos h2.symm]
      · rw [if_neg h2, if_neg (fun h : k2 = k => h2 h.symm),
          if_neg (fun h : k' = k2 => h2 (h1.symm.trans h))]
    · rw [if_neg h1]
      simp only [mapFind]
      by_cases h2 : k' = k2
      · rw [if_pos h2, if_pos h2, if_neg (fun h : k2 = k => h1 (h2.trans h))]
      · rw [if_neg h2, if_neg h2, ih]

theorem keysSubset_refl (m : List (String × String)) : keysSubset m m :=
  fun _ h => h

theorem keysSubset_trans {m1 m2 m3 : List (String × String)}
    (h1 : keysSubset m1 m2) (h2 : keysSubset m2 m3) : keysSubset m1 m3 :=
  fun k h => h2 k (h1 k h)

theorem keysSubset_mapSet (m : List (String × String)) (k v : String) :
    keysSubset m (mapSet m k v) := by
  intro k2 h
  rw [mapFind_mapSet]
  by_cases hk : k2 = k
  · simp [hk]
  · rw [if_neg hk]; exact h

/-! Helper lemmas about the resolver result-processing loop. -/

theorem findLookupResult_congr (results : List (EntityLookup × String))
    (d1 d2 : DocumentInfo) (hety : d1.entityType = d2.entityType)
    (hnp : d1.namePath = d2.namePath) :
    findLookupResult results d1 = findLookupResult results d2 := by
  simp only [findLookupResult, hety, hnp]

theorem processLookupResults_ok_spec (results : List (EntityLookup × String)) :
    ∀ (docs docs' : List DocumentInfo),
      processLookupResults results docs = .ok docs' →
      docs'.length = docs.length ∧
      ∀ i (hi : i < docs.length) (hi' : i < docs'.length),
        ∃ lk rid,
          findLookupResult results (docs.get ⟨i, hi⟩) = some (lk, rid) ∧
          strHasPre "ERROR:" rid = false ∧
          docs'.get ⟨i, hi'⟩ =
            { docs.get ⟨i, hi⟩ with
                salesforceIds :=
                  mapSet (docs.get ⟨i, hi⟩).salesforceIds
                    (toLowerAscii (docs.get ⟨i, hi⟩).entityType) rid } := by
  intro docs
  induction docs with
  | nil =>
    intro docs' h
    simp only [processLookupResults] at h
    cases h
    exact ⟨rfl, fun i hi _ => absurd hi (by simp)⟩
  | cons d ds ih =>
    intro docs' h
    simp only [processLookupResults] at h
    split at h
    · simp at h
    rename_i lk0 rid0 hfind
    split at h
    · simp at h
    rename_i herr
    split at h
    · simp at h
    rename_i rest hrec
    cases h
    obtain ⟨hlen, hget⟩ := ih rest hrec
    refine ⟨by simp [hlen], ?_⟩
    intro i hi hi'
    cases i with
    | zero =>
      exact ⟨lk0, rid0, hfind, by simpa using herr, rfl⟩
    | succ n =>
      have h1 : n < ds.length := by simp at hi; omega
      have h2 : n < rest.length := by simp at hi'; omega
      simpa using hget n h1 h2

theorem buildBulkLookupRequest_get (docs : List DocumentInfo) (k : Nat)
    (hk : k < docs.length) (hk2 : k < (buildBulkLookupRequest docs).length) :
    (buildBulkLookupRequest docs).get ⟨k, hk2⟩ =
      { entityType := (docs.get ⟨k, hk⟩).entityType,
        namePath := (docs.get ⟨k, hk⟩).namePath } := by
  simp [buildBulkLookupRequest, List.get_eq_getElem, List.getElem_map]

/-- C1, amended.  The bulk-lookup request built by bulkLookupEntities
contains one lookup per document, in document order, so two documents
sharing an identical (entityType, namePath) contribute two identical
lookups rather than one (no deduplication); after a successful
resolution both documents do have the same resolved identifier stored
under their level's key in SalesforceIds. -/
theorem claim_c1 (docs docs2 : List DocumentInfo)
    (results : List (EntityLookup × String)) (i j : Nat)
    (hi : i < docs.length) (hj : j < docs.length)
    (hety : (docs.get ⟨i, hi⟩).entityType = (docs.get ⟨j, hj⟩).entityType)
    (hnp : (docs.get ⟨i, hi⟩).namePath = (docs.get ⟨j, hj⟩).namePath)
    (hok : processLookupResults results docs = .ok docs2) :
    (buildBulkLookupRequest docs).length = docs.length ∧
    docs2.length = docs.length ∧
    (∀ k (hk : k < docs.length) (hk2 : k < (buildBulkLookupRequest docs).length),
        (buildBulkLookupRequest docs).get ⟨k, hk2⟩ =
          { entityType := (docs.get ⟨k, hk⟩).entityType,
            namePath := (docs.get ⟨k, hk⟩).namePath }) ∧
    ∀ (hi2 : i < docs2.length) (hj2 : j < docs2.length),
      (mapFind (docs2.get ⟨i, hi2⟩).salesforceIds
          (toLowerAscii (docs.get ⟨i, hi⟩).entityType)).isSome = true ∧
      mapFind (docs2.get ⟨i, hi2⟩).salesforceIds
          (toLowerAscii (docs.get ⟨i, hi⟩).entityType) =
        mapFind (docs2.get ⟨j, hj2⟩).salesforceIds
          (toLowerAscii (docs.get ⟨j, hj⟩).entityType) := by
  obtain ⟨hlen, hget⟩ := processLookupResults_ok_spec results docs docs2 hok
  refine ⟨by simp [buildBulkLookupRequest], hlen, buildBulkLookupRequest_get docs, ?_⟩
  intro hi2 hj2
  obtain ⟨lki, ridi, hfi, hei, hreci⟩ := hget i hi hi2
  obtain ⟨lkj, ridj, hfj, hej, hrecj⟩ := hget j hj hj2
  have hcongr := findLookupResult_congr results (docs.get ⟨i, hi⟩) (docs.get ⟨j, hj⟩) hety hnp
  rw [hfi, hfj] at hcongr
  have hrid : ridi = ridj :=
    (by simpa [Prod.ext_iff] using hcongr : lki = lkj ∧ ridi = ridj).2
  rw [hreci, hrecj, hety, hrid]
  simp [mapFind_mapSet]

/-- C1 counterexample: two documents with identical (entityType,
namePath) produce a bulk-lookup request holding two identical lookups
for that pair, not exactly one. -/
theorem claim_c1_counterexample :
    buildBulkLookupRequest [docA, docB] =
      [{ entityType := "PHASE", namePath := [("project", "P1"), ("phase", "F1")] },
       { entityType := "PHASE", namePath := [("project", "P1"), ("phase", "F1")] }] := by
  decide

/-- C1 witness: the amended claim evaluated on two duplicate PHASE
documents resolved by a single response entry. -/
theorem claim_c1_witness :
    (buildBulkLookupRequest [docA, docB]).length = 2 ∧
    (mapFind [("phase", "a0P1")] "phase").isSome = true := by
  have h := claim_c1 [docA, docB]
    [{ docA with salesforceIds := [("phase", "a0P1")] },
     { docB with salesforceIds := [("phase", "a0P1")] }]
    [({ entityType := "PHASE", namePath := [("project", "P1"), ("phase", "F1")] }, "a0P1")]
    0 1 (by decide) (by decide) rfl rfl (by decide)
  exact ⟨h.1, (h.2.2.2 (by decide) (by decide)).1⟩

/-- C2, amended.  When the documents before position p all match
non-error results and the document at position p matches an
ERROR:-tagged result, bulkLookupEntities aborts immediately with a
single-document message naming only that document; no LookupError list
is accumulated and no aggregate message is produced, and the documents
after position p are not processed. -/
theorem claim_c2 (results : List (EntityLookup × String))
    (pre post : List DocumentInfo) (d : DocumentInfo)
    (lk : EntityLookup) (rid : String)
    (hpre : ∀ d2 ∈ pre, ∃ p : EntityLookup × String,
        findLookupResult results d2 = some p ∧ strHasPre "ERROR:" p.2 = false)
    (hd : findLookupResult results d = some (lk, rid))
    (herr : strHasPre "ERROR:" rid = true) :
    processLookupResults results (pre ++ d :: post) =
      .error ("lookup failed for " ++ d.filePath ++ ": " ++ rid) := by
  induction pre with
  | nil =>
    simp [processLookupResults, hd, herr]
  | cons p ps ih =>
    obtain ⟨pr, hfind, hok⟩ := hpre p (by simp)
    obtain ⟨plk, prid⟩ := pr
    have hrec := ih (fun d2 hd2 => hpre d2 (by simp [hd2]))
    simp only [List.cons_append, processLookupResults, hfind]
    simp only at hok
    simp [hok, hrec]

/-- C2 counterexample: with error-tagged results for two distinct
(entityType, namePath) pairs, the resolver aborts on the first matched
error with a message naming only the first document, instead of
accumulating a LookupError per document and failing with an aggregate
message enumerating every failure. -/
theorem claim_c2_counterexample :
    processLookupResults
      [({ entityType := "PHASE", namePath := [("project", "P1"), ("phase", "F1")] },
        "ERROR:phase not found"),
       ({ entityType := "PHASE", namePath := [("project", "P1"), ("phase", "F2")] },
        "ERROR:phase not found")]
      [docA, docC] =
      .error "lookup failed for a.pdf: ERROR:phase not found" := by
  decide

/-- C2 witness: the amended claim evaluated on a run where the second
of three documents matches an error-tagged result. -/
theorem claim_c2_witness :
    processLookupResults
      [({ entityType := "PHASE", namePath := [("project", "P1"), ("phase", "F1")] }, "a0F1"),
       ({ entityType := "PHASE", namePath := [("project", "P1"), ("phase", "F2")] }, "ERROR:bad zone")]
      [docA, docC, docB] =
      .error "lookup failed for c.pdf: ERROR:bad zone" := by
  have h := claim_c2
    [({ entityType := "PHASE", namePath := [("project", "P1"), ("phase", "F1")] }, "a0F1"),
     ({ entityType := "PHASE", namePath := [("project", "P1"), ("phase", "F2")] }, "ERROR:bad zone")]
    [docA] [docB] docC
    { entityType := "PHASE", namePath := [("project", "P1"), ("phase", "F2")] }
    "ERROR:bad zone"
    (by
      intro d2 hd2
      simp at hd2
      subst hd2
      exact ⟨({ entityType := "PHASE", namePath := [("project", "P1"), ("phase", "F1")] }, "a0F1"),
             by decide, by decide⟩)
    (by decide) (by decide)
  exact h

/-- C3, amended.  bulkLookupEntities has no hierarchy levels: it issues
a single bulk request containing every document's (entityType, namePath)
and performs no parent-resolution check.  In particular a UNIT document
whose BUILDING parent was never resolved is still included in the
request and, given any matching non-error result, still obtains its
resolved identifier under the key "unit". -/
theorem claim_c3 (d : DocumentInfo) (results : List (EntityLookup × String))
    (lk : EntityLookup) (rid : String)
    (hety : d.entityType = "UNIT")
    (hfind : findLookupResult results d = some (lk, rid))
    (herr : strHasPre "ERROR:" rid = false) :
    buildBulkLookupRequest [d] = [{ entityType := d.entityType, namePath := d.namePath }] ∧
    processLookupResults results [d] =
      .ok [{ d with salesforceIds := mapSet d.salesforceIds "unit" rid }] := by
  refine ⟨rfl, ?_⟩
  simp only [processLookupResults, hfind, herr, hety]
  rfl

/-- C3 counterexample: a lone UNIT document, with no BUILDING (or any
other level) ever resolved, is included in the bulk request and
resolves from a matching result — it is neither excluded from a
unit-level batch nor reported with a ParentNotResolvedError, and no
per-level passes exist. -/
theorem claim_c3_counterexample :
    buildBulkLookupRequest [unitDoc] =
      [{ entityType := "UNIT",
         namePath := [("project", "P1"), ("phase", "F1"),
                      ("building", "B1"), ("unit", "U7")] }] ∧
    processLookupResults
      [({ entityType := "UNIT",
          namePath := [("project", "P1"), ("phase", "F1"),
                       ("building", "B1"), ("unit", "U7")] }, "a0U7")]
      [unitDoc] =
      .ok [{ unitDoc with salesforceIds := [("unit", "a0U7")] }] := by
  exact ⟨rfl, by decide⟩

/-- C3 witness: the amended claim evaluated on a second unit document
whose building was never looked up. -/
theorem claim_c3_witness :
    buildBulkLookupRequest [unitDocB] =
      [{ entityType := "UNIT",
         namePath := [("project", "P1"), ("phase", "F1"),
                      ("building", "B9"), ("unit", "U8")] }] ∧
    processLookupResults
      [({ entityType := "UNIT",
          namePath := [("project", "P1"), ("phase", "F1"),
                       ("building", "B9"), ("unit", "U8")] }, "a0U8")]
      [unitDocB] =
      .ok [{ unitDocB with salesforceIds := [("unit", "a0U8")] }] := by
  have h := claim_c3 unitDocB
    [({ entityType := "UNIT",
        namePath := [("project", "P1"), ("phase", "F1"),
                     ("building", "B9"), ("unit", "U8")] }, "a0U8")]
    { entityType := "UNIT",
      namePath := [("project", "P1"), ("phase", "F1"),
                   ("building", "B9"), ("unit", "U8")] }
    "a0U8" rfl (by decide) (by decide)
  exact h

/-- C4, amended.  Parsing "bl_u_ProjA_Ph1_Zn1_Bd1_U101.pdf" succeeds
with entityType UNIT, documentType "Building Location" and unit "U101"
(extension stripped), but the namePath holds only the four keys project,
phase, building, unit: the zone component "Zn1" (remaining[2]) is
skipped by the unit branch of parseEntityType and no "zone" key is
stored. -/
theorem claim_c4 :
    ParseFileName "bl_u_ProjA_Ph1_Zn1_Bd1_U101.pdf" =
      .ok { filePath := "bl_u_ProjA_Ph1_Zn1_Bd1_U101.pdf",
            entityType := "UNIT",
            namePath := [("project", "ProjA"), ("phase", "Ph1"),
                         ("building", "Bd1"), ("unit", "U101")],
            documentType := "Building Location" } := by
  decide

/-- C4 counterexample: the parse succeeds but the namePath of the
result has no "zone" key at all, so it does not contain the five keys
with zone bound to "Zn1". -/
theorem claim_c4_counterexample :
    (ParseFileName "bl_u_ProjA_Ph1_Zn1_Bd1_U101.pdf").map
        (fun i => mapFind i.namePath "zone") = .ok none := by
  decide

theorem parseEntityType_arity_err (code : String) (k : Nat)
    (hk : entityArity code = some k) (rest : List String)
    (hlen : rest.length ≠ k) (info : DocumentInfo) :
    parseEntityType code rest info = .error (arityMsg code rest.length) := by
  by_cases h1 : code = "u"
  · subst h1
    simp [entityArity] at hk
    subst hk
    rcases rest with _ | ⟨a, _ | ⟨b, _ | ⟨c, _ | ⟨d, _ | ⟨e, rest5⟩⟩⟩⟩⟩
    · simp [parseEntityType, arityMsg]
    · simp [parseEntityType, arityMsg]
    · simp [parseEntityType, arityMsg]
    · simp [parseEntityType, arityMsg]
    · simp [parseEntityType, arityMsg]
    · rcases rest5 with _ | ⟨f, rest6⟩
      · exact absurd rfl hlen
      · simp [parseEntityType, arityMsg]
  by_cases h2 : code = "p"
  · subst h2
    simp [entityArity] at hk
    subst hk
    rcases rest with _ | ⟨a, _ | ⟨b, rest2⟩⟩
    · simp [parseEntityType, arityMsg]
    · simp [parseEntityType, arityMsg]
    · rcases rest2 with _ | ⟨c, rest3⟩
      · exact absurd rfl hlen
      · simp [parseEntityType, arityMsg]
  by_cases h3 : code = "z"
  · subst h3
    simp [entityArity] at hk
    subst hk
    rcases rest with _ | ⟨a, _ | ⟨b, _ | ⟨c, rest3⟩⟩⟩
    · simp [parseEntityType, arityMsg]
    · simp [parseEntityType, arityMsg]
    · simp [parseEntityType, arityMsg]
    · rcases rest3 with _ | ⟨d, rest4⟩
      · exact absurd rfl hlen
      · simp [parseEntityType, arityMsg]
  by_cases h4 : code = "b"
  · subst h4
    simp [entityArity] at hk
    subst hk
    rcases rest with _ | ⟨a, _ | ⟨b, _ | ⟨c, _ | ⟨d, rest4⟩⟩⟩⟩
    · simp [parseEntityType, arityMsg]
    · simp [parseEntityType, arityMsg]
    · simp [parseEntityType, arityMsg]
    · simp [parseEntityType, arityMsg]
    · rcases rest4 with _ | ⟨e, rest5⟩
      · exact absurd rfl hlen
      · simp [parseEntityType, arityMsg]
  by_cases h5 : code = "dt"
  · subst h5
    simp [entityArity] at hk
    subst hk
    rcases rest with _ | ⟨a, _ | ⟨b, _ | ⟨c, rest3⟩⟩⟩
    · simp [parseEntityType, arityMsg]
    · simp [parseEntityType, arityMsg]
    · simp [parseEntityType, arityMsg]
    · rcases rest3 with _ | ⟨d, rest4⟩
      · exact absurd rfl hlen
      · simp [parseEntityType, arityMsg]
  · simp [entityArity, h1, h2, h3, h4, h5] at hk

/-- C8, amended.  For a filename whose underscore fields start with a
known document-type prefix and an entity code in the closed set (u, p,
z, b, dt) followed by the wrong number of trailing components, parsing
always returns an error and never succeeds or goes out of range: the
error names the expected and actual counts whenever at least one
trailing component is present (at least three fields in total), while
with zero trailing components the earlier minimum-field check fires
first and yields the generic invalid-filename-format message, which
names no counts.  In particular "bl_p_ProjA.pdf" fails with the
count-naming format error. -/
theorem claim_c8 (fname d code : String) (rest : List String)
    (dt : String) (k : Nat)
    (hsplit : splitFields fname = d :: code :: rest)
    (hdt : parseDocumentType d = some dt)
    (hk : entityArity code = some k)
    (hlen : rest.length ≠ k) :
    (rest = [] → ParseFileName fname = .error s!"invalid filename format: {fname}") ∧
    (rest ≠ [] → ParseFileName fname = .error (arityMsg code rest.length)) := by
  constructor
  · intro hrest
    subst hrest
    simp [ParseFileName, hsplit]
  · intro hrest
    simp only [ParseFileName, hsplit]
    have h3 : ¬ (d :: code :: rest).length < 3 := by
      have := List.length_pos.mpr hrest
      simp
      omega
    rw [if_neg h3]
    simp only [hdt]
    exact parseEntityType_arity_err code k hk rest hlen _

/-- C8 counterexample: "bl_p" has entity code p with zero trailing
components (arity 0 instead of 2), yet the error returned is the
generic invalid-filename-format message, which does not name the
expected and actual counts. -/
theorem claim_c8_counterexample :
    splitFields "bl_p" = ["bl", "p"] ∧
    ParseFileName "bl_p" = .error "invalid filename format: bl_p" := by
  decide

/-- C8 witness: the amended claim evaluated on "bl_p_ProjA.pdf" (arity
1 instead of 2) yields the count-naming phase format error. -/
theorem claim_c8_witness :
    ParseFileName "bl_p_ProjA.pdf" =
      .error "invalid phase filename format: expected 2 parts, got 1" := by
  have h := (claim_c8 "bl_p_ProjA.pdf" "bl" "p" ["ProjA.pdf"] "Building Location" 2
    (by decide) (by decide) (by decide) (by decide)).2 (by simp)
  exact h

theorem parseEntityType_ok_entityType (code : String) (rest : List String)
    (info out : DocumentInfo) (h : parseEntityType code rest info = .ok out) :
    out.entityType = "UNIT" ∨ out.entityType = "PHASE" ∨ out.entityType = "ZONE" ∨
    out.entityType = "BUILDING" ∨ out.entityType = "DESIGN_TYPE" := by
  simp only [parseEntityType] at h
  repeat' split at h
  all_goals first
    | (cases h; simp)
    | simp at h

/-- C10.  Every successful flat-convention parse yields an entityType
in the closed set UNIT, PHASE, ZONE, BUILDING, DESIGN_TYPE; the parser
never produces a PROJECT record, so project-level documents are not
expressible in the flat filename convention. -/
theorem claim_c10 (fname : String) (info : DocumentInfo)
    (h : ParseFileName fname = .ok info) :
    (info.entityType = "UNIT" ∨ info.entityType = "PHASE" ∨
     info.entityType = "ZONE" ∨ info.entityType = "BUILDING" ∨
     info.entityType = "DESIGN_TYPE") ∧
    info.entityType ≠ "PROJECT" := by
  simp only [ParseFileName] at h
  split at h
  · simp at h
  · split at h
    · split at h
      · simp at h
      · have hset := parseEntityType_ok_entityType _ _ _ info h
        refine ⟨hset, ?_⟩
        rcases hset with h1 | h1 | h1 | h1 | h1 <;> simp [h1]
    · simp at h

/-- C10 witness: the closed-set property evaluated on the successful
parse of "bl_p_ProjA_Ph1.pdf". -/
theorem claim_c10_witness :
    (({ filePath := "bl_p_ProjA_Ph1.pdf", entityType := "PHASE",
        namePath := [("project", "ProjA"), ("phase", "Ph1")],
        documentType := "Building Location" } : DocumentInfo).entityType = "UNIT" ∨
     ({ filePath := "bl_p_ProjA_Ph1.pdf", entityType := "PHASE",
        namePath := [("project", "ProjA"), ("phase", "Ph1")],
        documentType := "Building Location" } : DocumentInfo).entityType = "PHASE" ∨
     ({ filePath := "bl_p_ProjA_Ph1.pdf", entityType := "PHASE",
        namePath := [("project", "ProjA"), ("phase", "Ph1")],
        documentType := "Building Location" } : DocumentInfo).entityType = "ZONE" ∨
     ({ filePath := "bl_p_ProjA_Ph1.pdf", entityType := "PHASE",
        namePath := [("project", "ProjA"), ("phase", "Ph1")],
        documentType := "Building Location" } : DocumentInfo).entityType = "BUILDING" ∨
     ({ filePath := "bl_p_ProjA_Ph1.pdf", entityType := "PHASE",
        namePath := [("project", "ProjA"), ("phase", "Ph1")],
        documentType := "Building Location" } : DocumentInfo).entityType = "DESIGN_TYPE") ∧
    ({ filePath := "bl_p_ProjA_Ph1.pdf", entityType := "PHASE",
       namePath := [("project", "ProjA"), ("phase", "Ph1")],
       documentType := "Building Location" } : DocumentInfo).entityType ≠ "PROJECT" := by
  exact claim_c10 "bl_p_ProjA_Ph1.pdf" _ (by decide)

/-- C5, amended.  The collector of src/internal/processor/document.go
succeeds with the empty document list exactly when every directory
entry is a directory (hidden files are not skipped and are parsed like
any other file); there is no EmptyCollectionError: zero collected
documents is returned as success, not as an error. -/
theorem claim_c5 (entries : List DirEntry) :
    collectDocuments entries = .ok [] ↔ entries.all (fun e => e.isDir) = true := by
  induction entries with
  | nil => simp [collectDocuments]
  | cons e es ih =>
    by_cases hdir : e.isDir
    · simp [collectDocuments, hdir, ih]
    · simp only [collectDocuments, if_neg hdir]
      cases hp : ParseFileName e.name with
      | error err => simp [List.all_cons, hdir]
      | ok d =>
        cases hrec : collectDocuments es with
        | error err => simp [List.all_cons, hdir]
        | ok rest => simp [List.all_cons, hdir]

/-- C5 counterexample: a root whose only entry is a directory collects
zero documents and returns success with the empty list rather than an
EmptyCollectionError. -/
theorem claim_c5_counterexample :
    collectDocuments [{ name := "nested", isDir := true }] = .ok [] := by
  decide

theorem chunkBatches_nil : chunkBatches ([] : List α) = [] := by
  rw [chunkBatches]

theorem chunkBatches_cons (x : α) (xs : List α) :
    chunkBatches (x :: xs) =
      List.take 25 (x :: xs) :: chunkBatches (List.drop 25 (x :: xs)) := by
  rw [chunkBatches]

theorem length_buildContentVersionRequestsFrom :
    ∀ (i : Nat) (docs : List DocumentInfo),
      (buildContentVersionRequestsFrom i docs).length = docs.length := by
  intro i docs
  induction docs generalizing i with
  | nil => simp [buildContentVersionRequestsFrom]
  | cons d ds ih => simp [buildContentVersionRequestsFrom, ih]

theorem chunkBatches_length_le (n : Nat) :
    ∀ l : List α, l.length ≤ n → ∀ c ∈ chunkBatches l, c.length ≤ 25 := by
  induction n with
  | zero =>
    intro l hl c hc
    have hnil : l = [] := List.length_eq_zero.mp (Nat.le_zero.mp hl)
    subst hnil
    simp [chunkBatches_nil] at hc
  | succ m ih =>
    intro l hl c hc
    cases l with
    | nil => simp [chunkBatches_nil] at hc
    | cons x xs =>
      rw [chunkBatches_cons] at hc
      rcases List.mem_cons.mp hc with h | h
      · subst h
        simp [List.length_take]
      · refine ih (List.drop 25 (x :: xs)) ?_ c h
        simp at hl ⊢
        omega

theorem chunkBatches_len26 (l : List α) (h : l.length = 26) :
    (chunkBatches l).map List.length = [25, 1] := by
  cases l with
  | nil => simp at h
  | cons x xs =>
    have h' : xs.length = 25 := by simpa using h
    rw [chunkBatches_cons]
    have hd : (List.drop 25 (x :: xs)).length = 1 := by
      simp [List.length_drop]
      omega
    obtain ⟨y, hy⟩ := List.length_eq_one.mp hd
    rw [hy, chunkBatches_cons]
    have hdy : List.drop 25 [y] = [] := List.drop_eq_nil_of_le (by simp)
    rw [hdy, chunkBatches_nil]
    simp [List.length_take, h']

/-- C6.  With the fixed batch size 25, a document list of length
exactly 26 yields exactly 2 composite batch calls, the first carrying
25 requests and the second carrying 1; and in general every chunk sent
carries at most 25 requests. -/
theorem claim_c6 (docs : List DocumentInfo) :
    (docs.length = 26 →
      (chunkBatches (buildContentVersionRequests docs)).map List.length = [25, 1]) ∧
    ∀ c ∈ chunkBatches (buildContentVersionRequests docs), c.length ≤ 25 := by
  constructor
  · intro h26
    apply chunkBatches_len26
    rw [buildContentVersionRequests, length_buildContentVersionRequestsFrom, h26]
  · intro c hc
    exact chunkBatches_length_le (buildContentVersionRequests docs).length _ le_rfl c hc

/-- C6 witness: 26 replicated documents produce exactly the chunk
sizes 25 and 1. -/
theorem claim_c6_witness :
    (chunkBatches (buildContentVersionRequests (List.replicate 26 docA))).map
        List.length = [25, 1] :=
  (claim_c6 (List.replicate 26 docA)).1 (by simp)

theorem mem_buildAttachmentRequestsFrom :
    ∀ (docs : List DocumentInfo) (i : Nat) (r : AttachmentRequest),
      r ∈ buildAttachmentRequestsFrom i docs →
      ∃ j, ∃ hj : j < docs.length, r.refIdx = i + j ∧
        (docs.get ⟨j, hj⟩).contentDocumentId ≠ "" ∧
        attachmentEntityId (docs.get ⟨j, hj⟩) ≠ "" := by
  intro docs
  induction docs with
  | nil =>
    intro i r hr
    simp [buildAttachmentRequestsFrom] at hr
  | cons d ds ih =>
    intro i r hr
    simp only [buildAttachmentRequestsFrom] at hr
    by_cases h1 : d.contentDocumentId = ""
    · rw [if_pos h1] at hr
      obtain ⟨j, hj, href, hc, he⟩ := ih (i + 1) r hr
      refine ⟨j + 1, by simp; omega, by rw [href]; omega, hc, he⟩
    · rw [if_neg h1] at hr
      by_cases h2 : attachmentEntityId d = ""
      · rw [if_pos h2] at hr
        obtain ⟨j, hj, href, hc, he⟩ := ih (i + 1) r hr
        refine ⟨j + 1, by simp; omega, by rw [href]; omega, hc, he⟩
      · rw [if_neg h2] at hr
        rcases List.mem_cons.mp hr with h | h
        · subst h
          exact ⟨0, by simp, by simp, h1, h2⟩
        · obtain ⟨j, hj, href, hc, he⟩ := ih (i + 1) r h
          refine ⟨j + 1, by simp; omega, by rw [href]; omega, hc, he⟩

/-- C7.  In the join-record creation stage, a document missing its
durable ContentDocumentId or missing its level's resolved id produces
no request (it is skipped, and skipping is not a failure), and the
stage fails with the error "no valid records to create" exactly when
the set of creatable records is empty. -/
theorem claim_c7 (docs : List DocumentInfo) :
    (∀ i (hi : i < docs.length),
        ((docs.get ⟨i, hi⟩).contentDocumentId = "" ∨
         attachmentEntityId (docs.get ⟨i, hi⟩) = "") →
        ∀ r ∈ buildAttachmentRequests docs, r.refIdx ≠ i) ∧
    (bulkCreateAttachmentUploaders docs = .error "no valid records to create" ↔
      buildAttachmentRequests docs = []) := by
  constructor
  · intro i hi hskip r hr href
    obtain ⟨j, hj, hidx, hc, he⟩ := mem_buildAttachmentRequestsFrom docs 0 r hr
    have hji : j = i := by omega
    subst hji
    rcases hskip with h | h
    · exact hc h
    · exact he h
  · simp only [bulkCreateAttachmentUploaders]
    split
    · rename_i hemp
      simp [hemp]
    · rename_i hne
      simp [hne]

/-- C7 witness: a single document with no ContentDocumentId yields zero
creatable records and the stage fails with "no valid records to
create". -/
theorem claim_c7_witness :
    bulkCreateAttachmentUploaders [docA] = .error "no valid records to create" :=
  (claim_c7 [docA]).2.mpr rfl

theorem modifyAt_length (f : α → α) :
    ∀ (n : Nat) (l : List α), (modifyAt f n l).length = l.length := by
  intro n l
  induction l generalizing n with
  | nil => cases n <;> simp [modifyAt]
  | cons a as ih => cases n <;> simp [modifyAt, ih]

theorem modifyAt_get (f : α → α) :
    ∀ (n : Nat) (l : List α) (i : Nat) (hi : i < l.length)
      (hi2 : i < (modifyAt f n l).length),
      (modifyAt f n l).get ⟨i, hi2⟩ =
        if i = n then f (l.get ⟨i, hi⟩) else l.get ⟨i, hi⟩ := by
  intro n l
  induction l generalizing n with
  | nil => intro i hi _; simp at hi
  | cons a as ih =>
    intro i hi hi2
    cases n with
    | zero =>
      cases i with
      | zero => simp [modifyAt]
      | succ m => simp [modifyAt]
    | succ nm =>
      cases i with
      | zero => simp [modifyAt]
      | succ m =>
        have hi' : m < as.length := by simpa using hi
        have hi2' : m < (modifyAt f nm as).length := by
          rw [modifyAt_length]
          exact hi'
        have hstep : (modifyAt f (nm + 1) (a :: as)).get ⟨m + 1, hi2⟩ =
            (modifyAt f nm as).get ⟨m, hi2'⟩ := rfl
        rw [hstep, ih nm m hi' hi2']
        by_cases hmn : m = nm
        · simp [hmn]
        · simp [hmn]

theorem applyVersionIds_spec :
    ∀ (resps : List (Nat × String)) (docs : List DocumentInfo),
      (applyVersionIds docs resps).length = docs.length ∧
      ∀ i (hi : i < docs.length) (hi2 : i < (applyVersionIds docs resps).length),
        ((applyVersionIds docs resps).get ⟨i, hi2⟩).namePath =
          (docs.get ⟨i, hi⟩).namePath ∧
        keysSubset (docs.get ⟨i, hi⟩).salesforceIds
          ((applyVersionIds docs resps).get ⟨i, hi2⟩).salesforceIds := by
  intro resps
  induction resps with
  | nil =>
    intro docs
    exact ⟨rfl, fun i hi hi2 => ⟨rfl, keysSubset_refl _⟩⟩
  | cons r rs ih =>
    intro docs
    obtain ⟨idx, vid⟩ := r
    simp only [applyVersionIds]
    by_cases hidx : idx < docs.length
    · rw [if_pos hidx]
      obtain ⟨hlen, hinv⟩ :=
        ih (modifyAt
          (fun d => { d with salesforceIds :=
                        mapSet d.salesforceIds "contentVersionId" vid }) idx docs)
      refine ⟨by rw [hlen, modifyAt_length], ?_⟩
      intro i hi hi2
      have hiM : i < (modifyAt
          (fun d => { d with salesforceIds :=
                        mapSet d.salesforceIds "contentVersionId" vid }) idx docs).length := by
        rw [modifyAt_length]
        exact hi
      obtain ⟨hn2, hk2⟩ := hinv i hiM hi2
      have hget := modifyAt_get
        (fun d => { d with salesforceIds :=
                      mapSet d.salesforceIds "contentVersionId" vid }) idx docs i hi hiM
      by_cases hii : i = idx
      · rw [if_pos hii] at hget
        refine ⟨hn2.trans (by rw [hget]), ?_⟩
        refine keysSubset_trans ?_ hk2
        rw [hget]
        exact keysSubset_mapSet _ _ _
      · rw [if_neg hii] at hget
        refine ⟨hn2.trans (by rw [hget]), keysSubset_trans ?_ hk2⟩
        rw [hget]
        exact keysSubset_refl _
    · rw [if_neg hidx]
      exact ih docs

theorem applyContentDocIdsElem_spec (cdIdMap : List (String × String))
    (d : DocumentInfo) :
    (applyContentDocIdsElem cdIdMap d).namePath = d.namePath ∧
    (applyContentDocIdsElem cdIdMap d).salesforceIds = d.salesforceIds := by
  cases hf : mapFind d.salesforceIds "contentVersionId" with
  | none => simp [applyContentDocIdsElem, hf]
  | some v =>
    cases hg : mapFind cdIdMap v with
    | none => simp [applyContentDocIdsElem, hf, hg]
    | some c => simp [applyContentDocIdsElem, hf, hg]

theorem applyContentDocIds_get (cdIdMap : List (String × String))
    (docs : List DocumentInfo) (i : Nat) (hi : i < docs.length)
    (hi2 : i < (applyContentDocIds cdIdMap docs).length) :
    (applyContentDocIds cdIdMap docs).get ⟨i, hi2⟩ =
      applyContentDocIdsElem cdIdMap (docs.get ⟨i, hi⟩) := by
  simp [applyContentDocIds, List.get_eq_getElem, List.getElem_map]

theorem bulkUploadContentVersions_ok (docs : List DocumentInfo)
    (versionResults : List (Nat × String)) (cdIdMap : List (String × String))
    (out : List DocumentInfo)
    (h : bulkUploadContentVersions docs versionResults cdIdMap = .ok out) :
    out = applyContentDocIds cdIdMap (applyVersionIds docs versionResults) := by
  simp only [bulkUploadContentVersions] at h
  split at h
  · simp at h
  · cases h
    rfl

/-- C9.  Across the pipeline stages after parsing, namePath entries are
never modified and the resolvedIds (SalesforceIds) map is append-only:
entity resolution and content upload only add or overwrite bindings, so
every key present before a stage is still present after it; the
join-record creation stage only reads the documents (its embedding
returns requests and leaves the document list untouched). -/
theorem claim_c9 (docs docs1 docs2 : List DocumentInfo)
    (results : List (EntityLookup × String))
    (versionResults : List (Nat × String)) (cdIdMap : List (String × String))
    (h1 : processLookupResults results docs = .ok docs1)
    (h2 : bulkUploadContentVersions docs1 versionResults cdIdMap = .ok docs2) :
    docs1.length = docs.length ∧ docs2.length = docs.length ∧
    ∀ i (hi : i < docs.length) (hi1 : i < docs1.length) (hi2 : i < docs2.length),
      (docs1.get ⟨i, hi1⟩).namePath = (docs.get ⟨i, hi⟩).namePath ∧
      (docs2.get ⟨i, hi2⟩).namePath = (docs.get ⟨i, hi⟩).namePath ∧
      keysSubset (docs.get ⟨i, hi⟩).salesforceIds (docs1.get ⟨i, hi1⟩).salesforceIds ∧
      keysSubset (docs1.get ⟨i, hi1⟩).salesforceIds (docs2.get ⟨i, hi2⟩).salesforceIds ∧
      keysSubset (docs.get ⟨i, hi⟩).salesforceIds (docs2.get ⟨i, hi2⟩).salesforceIds := by
  obtain ⟨hlen1, hget1⟩ := processLookupResults_ok_spec results docs docs1 h1
  have hout := bulkUploadContentVersions_ok docs1 versionResults cdIdMap docs2 h2
  obtain ⟨hlenV, hinvV⟩ := applyVersionIds_spec versionResults docs1
  have hlen2 : docs2.length = docs.length := by
    rw [hout]
    simp only [applyContentDocIds, List.length_map]
    rw [hlenV, hlen1]
  refine ⟨hlen1, hlen2, ?_⟩
  intro i hi hi1 hi2
  obtain ⟨lk, rid, hfind, herr, hrec⟩ := hget1 i hi hi1
  have hn1 : (docs1.get ⟨i, hi1⟩).namePath = (docs.get ⟨i, hi⟩).namePath := by
    rw [hrec]
  have hk1 : keysSubset (docs.get ⟨i, hi⟩).salesforceIds
      (docs1.get ⟨i, hi1⟩).salesforceIds := by
    rw [hrec]
    exact keysSubset_mapSet _ _ _
  have hiV : i < (applyVersionIds docs1 versionResults).length := by
    rw [hlenV]
    exact hi1
  obtain ⟨hnV, hkV⟩ := hinvV i hi1 hiV
  have hiC : i < (applyContentDocIds cdIdMap (applyVersionIds docs1 versionResults)).length := by
    simp only [applyContentDocIds, List.length_map]
    exact hiV
  have hgetC := applyContentDocIds_get cdIdMap (applyVersionIds docs1 versionResults) i hiV hiC
  obtain ⟨hnE, hkE⟩ :=
    applyContentDocIdsElem_spec cdIdMap ((applyVersionIds docs1 versionResults).get ⟨i, hiV⟩)
  have hget2 : docs2.get ⟨i, hi2⟩ =
      applyContentDocIdsElem cdIdMap ((applyVersionIds docs1 versionResults).get ⟨i, hiV⟩) := by
    subst hout
    exact hgetC
  have hn2 : (docs2.get ⟨i, hi2⟩).namePath = (docs.get ⟨i, hi⟩).namePath := by
    rw [hget2, hnE, hnV, hn1]
  have hk2 : keysSubset (docs1.get ⟨i, hi1⟩).salesforceIds
      (docs2.get ⟨i, hi2⟩).salesforceIds := by
    rw [hget2, hkE]
    exact hkV
  exact ⟨hn1, hn2, hk1, hk2, keysSubset_trans hk1 hk2⟩

/-- C9 witness: a one-document run through resolution and upload keeps
the namePath intact and keeps every previously stored SalesforceIds
key. -/
theorem claim_c9_witness :
    ({ docA with
        salesforceIds := [("phase", "a0P1"), ("contentVersionId", "068V")],
        contentDocumentId := "069D" } : DocumentInfo).namePath = docA.namePath ∧
    keysSubset docA.salesforceIds
      ({ docA with
          salesforceIds := [("phase", "a0P1"), ("contentVersionId", "068V")],
          contentDocumentId := "069D" } : DocumentInfo).salesforceIds := by
  have h := claim_c9 [docA]
    [{ docA with salesforceIds := [("phase", "a0P1")] }]
    [{ docA with
        salesforceIds := [("phase", "a0P1"), ("contentVersionId", "068V")],
        contentDocumentId := "069D" }]
    [({ entityType := "PHASE", namePath := [("project", "P1"), ("phase", "F1")] }, "a0P1")]
    [(0, "068V")] [("068V", "069D")] (by decide) (by decide)
  have h2 := h.2.2 0 (by decide) (by decide) (by decide)
  exact ⟨h2.2.1, h2.2.2.2.2⟩

/-- C5 witness: the amended claim evaluated on a listing of two
directories collects zero documents and succeeds. -/
theorem claim_c5_witness :
    collectDocuments [{ name := "d1", isDir := true },
                      { name := "d2", isDir := true }] = .ok [] :=
  (claim_c5 [{ name := "d1", isDir := true },
             { name := "d2", isDir := true }]).mpr (by decide)
